import Mathlib

/-
Verification of the CLI bootstrap layer of the chalice deployment tool
(`chalice/cli/factory.py`), as a shallow embedding in Lean.

File input/output, the Python import machinery, and the botocore SDK are
represented by explicit outcome values (`ConfigRead`, `ImportOutcome`,
parameters for the SDK's default user-agent fields); everything the source
file itself computes (version validation including Python `float()` string
parsing, search-path adjustment, error translation, parameter layering,
the debug-log filter, user-agent rewriting) is translated directly.

Python floats are modelled exactly for parsing purposes (`PFloat` keeps
finite values as exact rationals and has distinguished `inf`, `neginf` and
`nan` values with Python's comparison behaviour); binary rounding of
decimal literals is not modelled, which is irrelevant at the 2.0 boundary
used by the code. `float()` string parsing follows CPython's grammar over
ASCII: surrounding whitespace, an optional sign, `inf`/`infinity`/`nan`
case-insensitively, or a decimal literal with optional single underscores
between digits and an optional exponent part.
-/

/-- A JSON value, as produced by `json.loads` for the project config file. -/
inductive JVal where
  | jnull
  | jbool (b : Bool)
  | jnum (q : ℚ)
  | jstr (s : String)
  | jarr (elems : List JVal)
  | jobj (fields : List (String × JVal))

/-- The value of a Python float: an exact finite rational, an infinity, or
the not-a-number value. -/
inductive PFloat where
  | finite (q : ℚ)
  | inf
  | neginf
  | nan
  deriving DecidableEq

/-- The Python exceptions that can arise in this module.
`runtimeError` and `unknownConfigFileVersion` are the two translated,
user-facing kinds raised by the source itself; the rest model exceptions
raised by built-ins or by user code and propagated. -/
inductive PyErr where
  | osError
  | ioError
  | jsonDecodeError
  | valueError
  | typeError
  | indexError
  | attributeError
  | unknownConfigFileVersion (version : JVal)
  | runtimeError (msg : String)
  | importOther (tag : Nat)

/-- ASCII whitespace stripped by `str.strip()` before `float()` parses. -/
def isPySpace (c : Char) : Bool :=
  c = ' ' || c = '\t' || c = '\n' || c = '\r' || c = Char.ofNat 11 || c = Char.ofNat 12

/-- Strip leading and trailing whitespace from a character list. -/
def stripChars (cs : List Char) : List Char :=
  ((cs.dropWhile isPySpace).reverse.dropWhile isPySpace).reverse

/-- Continue a digit run after at least one digit: further digits, with
single underscores allowed only between digits.  Returns the digits read
and the unconsumed remainder. -/
def dpGo : List Char → List Char × List Char
  | [] => ([], [])
  | '_' :: [] => ([], ['_'])
  | '_' :: c2 :: rest2 =>
      if c2.isDigit then
        let p := dpGo rest2
        (c2 :: p.1, p.2)
      else ([], '_' :: c2 :: rest2)
  | c :: rest =>
      if c.isDigit then
        let p := dpGo rest
        (c :: p.1, p.2)
      else ([], c :: rest)

/-- Read a Python `digitpart`: one digit, then more digits possibly
separated by single underscores.  `none` when the input does not start
with a digit. -/
def takeDigitpart : List Char → Option (List Char × List Char)
  | [] => none
  | c :: rest =>
      if c.isDigit then
        let p := dpGo rest
        some (c :: p.1, p.2)
      else none

/-- Numeric value of a list of ASCII digits. -/
def digitsToNat (ds : List Char) : Nat :=
  ds.foldl (fun n c => n * 10 + (c.toNat - 48)) 0

/-- Ten to an integer power, as a rational. -/
def tenPowZ : ℤ → ℚ
  | Int.ofNat n => (10 : ℚ) ^ n
  | Int.negSucc n => ((10 : ℚ) ^ (n + 1))⁻¹

/-- Exact value of a decimal literal with integer digits `ints`, fraction
digits `fracs` and decimal exponent `e`. -/
def mkQ (ints fracs : List Char) (e : ℤ) : ℚ :=
  (digitsToNat (ints ++ fracs) : ℚ) * tenPowZ (e - (fracs.length : ℤ))

/-- Parse the digits of an exponent part; the whole remainder must be
consumed. -/
def parseExpDigits (ints fracs : List Char) (negExp : Bool) (rest : List Char) : Option ℚ :=
  match takeDigitpart rest with
  | some (es, []) =>
      let e : ℤ := digitsToNat es
      some (mkQ ints fracs (if negExp then -e else e))
  | _ => none

/-- Parse an optional exponent part (`e`/`E`, optional sign, digits) after
a mantissa; the whole remainder must be consumed. -/
def parseExpPart (ints fracs : List Char) (rest : List Char) : Option ℚ :=
  match rest with
  | [] => some (mkQ ints fracs 0)
  | c :: r2 =>
      if c = 'e' || c = 'E' then
        match r2 with
        | '+' :: r3 => parseExpDigits ints fracs false r3
        | '-' :: r3 => parseExpDigits ints fracs true r3
        | r3 => parseExpDigits ints fracs false r3
      else none

/-- Parse an unsigned decimal float literal (CPython `floatnumber`):
`digitpart ["." [digitpart]] [exponent]` or `"." digitpart [exponent]`. -/
def parseDecimal (cs : List Char) : Option ℚ :=
  match takeDigitpart cs with
  | some (ds, rest) =>
      match rest with
      | '.' :: r2 =>
          match takeDigitpart r2 with
          | some (fs, r3) => parseExpPart ds fs r3
          | none => parseExpPart ds [] r2
      | _ => parseExpPart ds [] rest
  | none =>
      match cs with
      | '.' :: r2 =>
          match takeDigitpart r2 with
          | some (fs, r3) => parseExpPart [] fs r3
          | none => none
      | _ => none

/-- Parse the part of a `float()` argument after the optional sign:
`inf`, `infinity`, `nan` (case-insensitive) or a decimal literal. -/
def parseUnsignedFloat (neg : Bool) (cs : List Char) : Option PFloat :=
  let lower := cs.map Char.toLower
  if lower = "inf".toList ∨ lower = "infinity".toList then
    some (if neg then PFloat.neginf else PFloat.inf)
  else if lower = "nan".toList then
    some PFloat.nan
  else
    match parseDecimal cs with
    | some q => some (PFloat.finite (if neg then -q else q))
    | none => none

/-- Python `float(s)` for a string `s`: `none` models a `ValueError`. -/
def pyFloatOfString (s : String) : Option PFloat :=
  match stripChars s.toList with
  | '+' :: cs => parseUnsignedFloat false cs
  | '-' :: cs => parseUnsignedFloat true cs
  | cs => parseUnsignedFloat false cs

/-- Python `float(x)` for a JSON-decoded value `x`: strings are parsed,
numbers (including booleans, which are numeric in Python) convert
directly, and every other value raises `TypeError`. -/
def pyFloat : JVal → Except PyErr PFloat
  | JVal.jstr s =>
      match pyFloatOfString s with
      | some v => Except.ok v
      | none => Except.error PyErr.valueError
  | JVal.jnum q => Except.ok (PFloat.finite q)
  | JVal.jbool b => Except.ok (PFloat.finite (if b then 1 else 0))
  | JVal.jnull => Except.error PyErr.typeError
  | JVal.jarr _ => Except.error PyErr.typeError
  | JVal.jobj _ => Except.error PyErr.typeError

/-- Python `v > c` for a float `v` and a finite bound `c`: infinities
compare as expected and `nan` compares greater than nothing. -/
def pyGt (v : PFloat) (c : ℚ) : Bool :=
  match v with
  | PFloat.finite q => decide (c < q)
  | PFloat.inf => true
  | PFloat.neginf => false
  | PFloat.nan => false

/-- Message built by `UnknownConfigFileVersion.__init__` for a string
version value. -/
def unknown_version_message (s : String) : String :=
  "Unknown version '" ++ s ++ "' in config.json"

/-- `CLIFactory._validate_config_from_disk`: read the `version` key
(defaulting to the string `"1.0"`), convert with `float()`, and reject
values greater than `2.0`; a `ValueError` from the conversion is turned
into `UnknownConfigFileVersion`, any other exception propagates. -/
def validate_config_from_disk (config : List (String × JVal)) : Except PyErr Unit :=
  let string_version := (List.lookup "version" config).getD (JVal.jstr "1.0")
  match pyFloat string_version with
  | Except.error PyErr.valueError =>
      Except.error (PyErr.unknownConfigFileVersion string_version)
  | Except.error e => Except.error e
  | Except.ok version =>
      if pyGt version 2 then
        Except.error (PyErr.unknownConfigFileVersion string_version)
      else Except.ok ()

example : validate_config_from_disk [] = Except.ok () := by with_unfolding_all rfl
example : validate_config_from_disk [("version", JVal.jstr "2.0")] = Except.ok () := by with_unfolding_all rfl
example : validate_config_from_disk [("version", JVal.jstr "2.1")] =
    Except.error (PyErr.unknownConfigFileVersion (JVal.jstr "2.1")) := by with_unfolding_all rfl
example : validate_config_from_disk [("version", JVal.jstr "abc")] =
    Except.error (PyErr.unknownConfigFileVersion (JVal.jstr "abc")) := rfl
example : validate_config_from_disk [("version", JVal.jstr "nan")] = Except.ok () := rfl
example : validate_config_from_disk [("version", JVal.jstr "inf")] =
    Except.error (PyErr.unknownConfigFileVersion (JVal.jstr "inf")) := rfl
example : validate_config_from_disk [("version", JVal.jnull)] =
    Except.error PyErr.typeError := rfl
example : pyFloatOfString " -1_2.5e+1 " = some (PFloat.finite (-125)) := by with_unfolding_all rfl
example : pyFloatOfString "1_" = none := rfl
example : pyFloatOfString ".5" = some (PFloat.finite (1/2)) := by with_unfolding_all rfl
example : pyFloatOfString "5." = some (PFloat.finite 5) := by with_unfolding_all rfl
example : pyFloatOfString "." = none := rfl
example : pyFloatOfString "" = none := rfl
example : pyFloatOfString "InFiNiTy" = some PFloat.inf := by with_unfolding_all rfl

/-- A positional argument of a log record: an operation-model object
carrying a `.name` attribute, a plain string, or some other object with
no `.name` attribute. -/
inductive Arg where
  | op (name : String)
  | str (s : String)
  | other (tag : Nat)
  deriving DecidableEq

/-- A `logging.LogRecord` as the filter sees it: the unformatted message,
the tuple of positional arguments, and (collapsed into one field) every
attribute the filter never touches. -/
structure LogRecord where
  msg : String
  args : List Arg
  rest : Nat
  deriving DecidableEq

/-- The fixed placeholder the filter substitutes for oversized bodies. -/
def log_placeholder : String := "(... omitted from logs due to size ...)"

/-- `l` starts with the pattern `p` (character-list version of
`str.startswith`). -/
def starts_with_chars : List Char → List Char → Bool
  | _, [] => true
  | [], _ :: _ => false
  | c :: cs, p :: ps => c == p && starts_with_chars cs ps

/-- `record.msg.startswith('Making request')`. -/
def msg_starts_making_request (msg : String) : Bool :=
  starts_with_chars msg.toList "Making request".toList

/-- `getattr(arg, 'name')`: only operation-model objects carry one. -/
def arg_name : Arg → Except PyErr String
  | Arg.op n => Except.ok n
  | Arg.str _ => Except.error PyErr.attributeError
  | Arg.other _ => Except.error PyErr.attributeError

/-- `LargeRequestBodyFilter.filter`: on a message starting with
`"Making request"` whose first positional argument names
`UpdateFunctionCode` or `CreateFunction`, replace the last positional
argument with the placeholder; return `True` (keep the record).  The
subscript `record.args[0]` and the attribute access `.name` can raise,
modelled by the `error` results. -/
def LargeRequestBodyFilter_filter (record : LogRecord) :
    Except PyErr (Bool × LogRecord) :=
  if msg_starts_making_request record.msg then
    match record.args with
    | [] => Except.error PyErr.indexError
    | a :: _ =>
        match arg_name a with
        | Except.error e => Except.error e
        | Except.ok n =>
            if n ∈ ["UpdateFunctionCode", "CreateFunction"] then
              Except.ok (true,
                { record with args := record.args.dropLast ++ [Arg.str log_placeholder] })
            else Except.ok (true, record)
  else Except.ok (true, record)

example :
    LargeRequestBodyFilter_filter
        { msg := "Making request for op", args := [Arg.op "CreateFunction", Arg.str "zip"], rest := 3 } =
      Except.ok (true,
        { msg := "Making request for op", args := [Arg.op "CreateFunction", Arg.str log_placeholder], rest := 3 }) := by
  with_unfolding_all rfl
example :
    LargeRequestBodyFilter_filter { msg := "Starting new", args := [Arg.op "CreateFunction"], rest := 0 } =
      Except.ok (true, { msg := "Starting new", args := [Arg.op "CreateFunction"], rest := 0 }) := by
  with_unfolding_all rfl

/-- `os.path.join(project_dir, 'vendor')` on a POSIX path. -/
def vendor_dir (project_dir : String) : String :=
  if project_dir = "" then "vendor"
  else if project_dir.toList.getLast? = some '/' then project_dir ++ "vendor"
  else project_dir ++ "/vendor"

/-- The search-path mutation performed at the top of
`CLIFactory.load_chalice_app`: insert the project directory at the front
when absent, then append the vendor directory at the end when it exists
on disk and is absent from the (already updated) path. -/
def adjust_search_path (project_dir : String) (vendor_isdir : Bool)
    (path : List String) : List String :=
  let path1 := if project_dir ∈ path then path else project_dir :: path
  let vd := vendor_dir project_dir
  if vendor_isdir = true ∧ vd ∉ path1 then path1 ++ [vd] else path1

example : adjust_search_path "p" true [] = ["p", "p/vendor"] := by with_unfolding_all rfl
example : adjust_search_path "p" false ["x"] = ["p", "x"] := by with_unfolding_all rfl
example : adjust_search_path "p" true ["p", "p/vendor"] = ["p", "p/vendor"] := by
  with_unfolding_all rfl

/-- Outcome of `importlib.import_module('app')` followed by
`getattr(app, 'app')`: the module imports and has (or lacks) the `app`
attribute, or the import raises a `SyntaxError` with the given location
data, or it raises some other exception. -/
inductive ImportOutcome where
  | ok (hasAppAttr : Bool) (appObj : Nat)
  | syntaxError (filename : String) (lineno : Nat) (text : String) (msg : String)
  | otherError (tag : Nat)

/-- Outcome of opening `.chalice/config.json` and decoding it: the two
read-failure exception classes caught by the caller, the decode failure
raised by `json.loads` (a `ValueError`), or the decoded object. -/
inductive ConfigRead where
  | osErr
  | ioErr
  | jsonErr
  | ok (config : List (String × JVal))

/-- The constructor arguments of `CLIFactory`. -/
structure CLIFactory where
  project_dir : String
  debug : Bool
  profile : Option String

/-- Everything the process environment determines: the config file on
disk, whether `<project>/vendor` is a directory, and what importing the
entry-point module does. -/
structure World where
  configRead : ConfigRead
  vendor_isdir : Bool
  importApp : ImportOutcome

/-- `CLIFactory.load_project_config`: raises `OSError`/`IOError` when the
file cannot be read, the `json.loads` decode error when it cannot be
parsed, and otherwise returns the decoded mapping. -/
def load_project_config (w : World) : Except PyErr (List (String × JVal)) :=
  match w.configRead with
  | ConfigRead.osErr => Except.error PyErr.osError
  | ConfigRead.ioErr => Except.error PyErr.ioError
  | ConfigRead.jsonErr => Except.error PyErr.jsonDecodeError
  | ConfigRead.ok c => Except.ok c

/-- The message `CLIFactory.load_chalice_app` builds from a
`SyntaxError`'s filename, line number, offending source text and
description. -/
def syntax_error_message (filename : String) (lineno : Nat) (text msg : String) : String :=
  "Unable to import your app.py file:\n\nFile \"" ++ filename ++ "\", line " ++
    toString lineno ++ "\n  " ++ text ++ "\nSyntaxError: " ++ msg

/-- `CLIFactory.load_chalice_app`: adjust the module search path, import
the entry-point module and extract its `app` attribute; a `SyntaxError`
during import is translated to a `RuntimeError` with a formatted message,
every other failure propagates as it is.  Returns the result together
with the updated search path. -/
def load_chalice_app (fac : CLIFactory) (w : World) (path : List String) :
    Except PyErr Nat × List String :=
  let path2 := adjust_search_path fac.project_dir w.vendor_isdir path
  match w.importApp with
  | ImportOutcome.ok hasAppAttr a =>
      if hasAppAttr then (Except.ok a, path2)
      else (Except.error PyErr.attributeError, path2)
  | ImportOutcome.syntaxError f l t m =>
      (Except.error (PyErr.runtimeError (syntax_error_message f l t m)), path2)
  | ImportOutcome.otherError tag =>
      (Except.error (PyErr.importOther tag), path2)

/-- The steps of `CLIFactory.create_config_obj`, in the order they are
attempted, for reasoning about what happens before what. -/
inductive Event where
  | readConfig
  | validateCfg
  | loadApp
  | mergeConfig
  deriving DecidableEq

/-- The `default_params` layer: lowest precedence, always the same two
entries. -/
structure DefaultParams where
  project_dir : String
  autogen_policy : Bool
  deriving DecidableEq

/-- The `user_provided_params` layer: a dictionary into which each key is
inserted only under the conditions coded in `create_config_obj`, modelled
with one optional field per key (`none` = key absent). -/
structure UserProvidedParams where
  chalice_app : Option Nat
  autogen_policy : Option Bool
  profile : Option String
  api_gateway_stage : Option String
  deriving DecidableEq

/-- The arguments handed to the external `Config` constructor: one named
stage plus the three parameter layers. -/
structure ConfigObj where
  chalice_stage : String
  user_provided_params : UserProvidedParams
  config_from_disk : List (String × JVal)
  default_params : DefaultParams

/-- The wrapped message for an unreadable project config file. -/
def unable_to_load_message : String :=
  "Unable to load the project config file. Are you sure this is a chalice project?"

/-- `CLIFactory.create_config_obj`: read the config file (wrapping
`OSError`/`IOError` into a `RuntimeError`), validate its version, load the
application, assemble the parameter layers and hand them to `Config`.
Returns the result, the updated module search path, and the trace of
steps that were started, in order. -/
def create_config_obj (fac : CLIFactory) (w : World) (path : List String)
    (chalice_stage_name : String) (autogen_policy : Option Bool)
    (api_gateway_stage : Option String) :
    Except PyErr ConfigObj × List String × List Event :=
  let default_params : DefaultParams :=
    { project_dir := fac.project_dir, autogen_policy := true }
  match load_project_config w with
  | Except.error PyErr.osError =>
      (Except.error (PyErr.runtimeError unable_to_load_message), path, [Event.readConfig])
  | Except.error PyErr.ioError =>
      (Except.error (PyErr.runtimeError unable_to_load_message), path, [Event.readConfig])
  | Except.error e => (Except.error e, path, [Event.readConfig])
  | Except.ok config_from_disk =>
      match validate_config_from_disk config_from_disk with
      | Except.error e =>
          (Except.error e, path, [Event.readConfig, Event.validateCfg])
      | Except.ok _ =>
          match load_chalice_app fac w path with
          | (Except.error e, path2) =>
              (Except.error e, path2,
                [Event.readConfig, Event.validateCfg, Event.loadApp])
          | (Except.ok app_obj, path2) =>
              let user_provided_params : UserProvidedParams :=
                { chalice_app := some app_obj
                  autogen_policy := autogen_policy
                  profile := fac.profile
                  api_gateway_stage := api_gateway_stage }
              (Except.ok
                  { chalice_stage := chalice_stage_name
                    user_provided_params := user_provided_params
                    config_from_disk := config_from_disk
                    default_params := default_params },
                path2,
                [Event.readConfig, Event.validateCfg, Event.loadApp, Event.mergeConfig])

/-- The three error kinds the specification allows to surface from
`create_config_obj`: the wrapped unreadable-config error, an unknown
config version, and the translated application-load syntax error. -/
def IsSpecifiedErrorKind (e : PyErr) : Prop :=
  e = PyErr.runtimeError unable_to_load_message ∨
  (∃ v, e = PyErr.unknownConfigFileVersion v) ∨
  (∃ f l t m, e = PyErr.runtimeError (syntax_error_message f l t m))

/-- Modelled from the spec: the tool's release version string
(`chalice.__version__`), imported from a module that is not part of the
sources here; the exact literal is immaterial, only that both user-agent
rewriting and the session carry the same value. -/
def chalice_version : String := "0.5.0"

/-- A botocore `Session` as far as this module observes it: the profile it
was built with, its three user-agent fields, and whether debug logging
was switched on. -/
structure Session where
  profile : Option String
  user_agent_name : String
  user_agent_version : String
  user_agent_extra : String
  debug_logger : Bool
  deriving DecidableEq

/-- `botocore.session.Session(profile=profile)`: the SDK chooses its own
default user-agent name and version (passed here as parameters since the
SDK is external) and an empty extra field. -/
def session_new (sdk_name sdk_version : String) (profile : Option String) : Session :=
  { profile := profile
    user_agent_name := sdk_name
    user_agent_version := sdk_version
    user_agent_extra := ""
    debug_logger := false }

/-- `_add_chalice_user_agent`: capture the SDK's name/version as a
combined suffix, then replace name and version with the tool's own and
store the suffix as the extra field. -/
def add_chalice_user_agent (s : Session) : Session :=
  let suffix := s.user_agent_name ++ "/" ++ s.user_agent_version
  { s with
      user_agent_name := "aws-chalice"
      user_agent_version := chalice_version
      user_agent_extra := suffix }

/-- The filters registered on the `botocore.endpoint` logger; all
`_inject_large_request_body_filter` does is append one. -/
structure LoggingState where
  endpoint_filter_count : Nat
  deriving DecidableEq

/-- `_inject_large_request_body_filter`. -/
def inject_large_request_body_filter (ls : LoggingState) : LoggingState :=
  { endpoint_filter_count := ls.endpoint_filter_count + 1 }

/-- `create_botocore_session`: build the session, rewrite its user agent,
and when debugging is on enable the SDK debug logger and register the
large-request-body filter. -/
def create_botocore_session (sdk_name sdk_version : String)
    (profile : Option String) (debug : Bool) (ls : LoggingState) :
    Session × LoggingState :=
  let s := session_new sdk_name sdk_version profile
  let s2 := add_chalice_user_agent s
  if debug then
    ({ s2 with debug_logger := true }, inject_large_request_body_filter ls)
  else (s2, ls)

/-- Helper: the evaluation of Python `float('nan')` in the model. -/
lemma pyFloat_nan_eval : pyFloat (JVal.jstr "nan") = Except.ok PFloat.nan := by
  with_unfolding_all rfl

/-- C1 counterexample: with `version` set to the string `"nan"`,
validation succeeds (Python's `float('nan')` parses and `nan > 2.0` is
false), although the key is present and the value does not parse as a
decimal number at most `2.0`; so the claimed equivalence is false. -/
theorem c1_counterexample :
    validate_config_from_disk [("version", JVal.jstr "nan")] = Except.ok () ∧
    ¬ (List.lookup "version" [("version", JVal.jstr "nan")] = none ∨
        ∃ q : ℚ, pyFloat (JVal.jstr "nan") = Except.ok (PFloat.finite q) ∧ q ≤ 2) := by
  refine ⟨by with_unfolding_all rfl, ?_⟩
  rintro (h | ⟨q, hq, -⟩)
  · rw [show List.lookup "version" [("version", JVal.jstr "nan")] = some (JVal.jstr "nan")
        from by with_unfolding_all rfl] at h
    exact Option.noConfusion h
  · rw [pyFloat_nan_eval] at hq
    injection hq with h2
    exact PFloat.noConfusion h2

/-- C1 (amended): for every raw configuration mapping, version validation
succeeds iff the `version` value (defaulting to the string `"1.0"` when
the key is absent) converts under Python `float()` to a value that is not
greater than `2.0` — which admits `nan` and negative infinity in addition
to decimal numbers at most `2.0`; and every failure on a string-valued
version raises `UnknownConfigFileVersion` carrying the offending literal
string in its message. -/
theorem c1_version_validation (config : List (String × JVal)) :
    (validate_config_from_disk config = Except.ok () ↔
      ∃ f : PFloat,
        pyFloat ((List.lookup "version" config).getD (JVal.jstr "1.0")) = Except.ok f ∧
        pyGt f 2 = false) ∧
    (∀ s e, List.lookup "version" config = some (JVal.jstr s) →
      validate_config_from_disk config = Except.error e →
      e = PyErr.unknownConfigFileVersion (JVal.jstr s) ∧
      ∃ p1 p2, unknown_version_message s = p1 ++ s ++ p2) := by
  constructor
  · unfold validate_config_from_disk
    cases hp : pyFloat ((List.lookup "version" config).getD (JVal.jstr "1.0")) with
    | error e =>
        cases e <;> simp [hp]
    | ok f =>
        cases hg : pyGt f 2 <;> simp [hp, hg]
  · intro s e hs he
    refine ⟨?_, "Unknown version '", "' in config.json", rfl⟩
    unfold validate_config_from_disk at he
    rw [hs] at he
    simp only [Option.getD_some] at he
    cases hp : pyFloat (JVal.jstr s) with
    | error e2 =>
        have he2 : e2 = PyErr.valueError := by
          unfold pyFloat at hp
          cases hps : pyFloatOfString s <;> simp only [hps] at hp
          · injection hp with h3
            exact h3.symm
          · exact Except.noConfusion hp
        subst he2
        simp only [hp] at he
        injection he with h2
        exact h2.symm
    | ok f =>
        simp only [hp] at he
        cases hg : pyGt f 2
        · rw [hg] at he
          simp at he
        · rw [hg] at he
          simp only [if_pos] at he
          injection he with h2
          exact h2.symm

/-- C1 witness: the amended equivalence accepts `"2.0"`, and the failure
clause applies to `"3.0"`, whose error carries the literal. -/
theorem c1_version_validation_witness :
    validate_config_from_disk [("version", JVal.jstr "2.0")] = Except.ok () ∧
    (PyErr.unknownConfigFileVersion (JVal.jstr "3.0") =
        PyErr.unknownConfigFileVersion (JVal.jstr "3.0") ∧
      ∃ p1 p2, unknown_version_message "3.0" = p1 ++ "3.0" ++ p2) := by
  constructor
  · exact (c1_version_validation [("version", JVal.jstr "2.0")]).1.mpr
      ⟨PFloat.finite 2, by with_unfolding_all rfl, by with_unfolding_all rfl⟩
  · exact (c1_version_validation [("version", JVal.jstr "3.0")]).2 "3.0"
      (PyErr.unknownConfigFileVersion (JVal.jstr "3.0"))
      (by with_unfolding_all rfl) (by with_unfolding_all rfl)

/-- Helper: `float()` on a JSON value only raises `ValueError` (string
that does not parse) or `TypeError` (non-numeric, non-string value). -/
lemma pyFloat_error_kinds (x : JVal) (e : PyErr) (h : pyFloat x = Except.error e) :
    e = PyErr.valueError ∨ e = PyErr.typeError := by
  cases x with
  | jstr s =>
      unfold pyFloat at h
      cases hps : pyFloatOfString s <;> simp only [hps] at h
      · injection h with h1
        exact Or.inl h1.symm
      · exact Except.noConfusion h
  | jnum q => simp [pyFloat] at h
  | jbool b => simp [pyFloat] at h
  | jnull =>
      simp [pyFloat] at h
      exact Or.inr h.symm
  | jarr xs =>
      simp [pyFloat] at h
      exact Or.inr h.symm
  | jobj fs =>
      simp [pyFloat] at h
      exact Or.inr h.symm

/-- Helper: every error raised by version validation is an
`UnknownConfigFileVersion` or the uncaught `TypeError`. -/
lemma validate_error_kinds (c : List (String × JVal)) (e : PyErr)
    (h : validate_config_from_disk c = Except.error e) :
    (∃ v, e = PyErr.unknownConfigFileVersion v) ∨ e = PyErr.typeError := by
  unfold validate_config_from_disk at h
  cases hp : pyFloat ((List.lookup "version" c).getD (JVal.jstr "1.0")) with
  | error e2 =>
      rcases pyFloat_error_kinds _ _ hp with rfl | rfl
      · simp only [hp] at h
        injection h with h1
        exact Or.inl ⟨_, h1.symm⟩
      · simp only [hp] at h
        injection h with h1
        exact Or.inr h1.symm
  | ok f =>
      simp only [hp] at h
      cases hg : pyGt f 2 <;> rw [hg] at h
      · simp at h
      · simp only [if_pos] at h
        injection h with h1
        exact Or.inl ⟨_, h1.symm⟩

/-- C10: when the `version` value is neither a string nor numeric (a JSON
list, object or null), validation raises the uncaught `TypeError` from
`float()` rather than `UnknownConfigFileVersion` (booleans count as
numeric in Python); and a numeric version value passes validation exactly
when it is at most `2.0`. -/
theorem c10_version_type_error (config : List (String × JVal)) (v : JVal)
    (h : List.lookup "version" config = some v) :
    ((v = JVal.jnull ∨ (∃ xs, v = JVal.jarr xs) ∨ (∃ fs, v = JVal.jobj fs)) →
      validate_config_from_disk config = Except.error PyErr.typeError) ∧
    (∀ q : ℚ, v = JVal.jnum q →
      (validate_config_from_disk config = Except.ok () ↔ q ≤ 2)) := by
  constructor
  · intro hv
    unfold validate_config_from_disk
    rw [h]
    simp only [Option.getD_some]
    rcases hv with rfl | ⟨xs, rfl⟩ | ⟨fs, rfl⟩ <;> simp [pyFloat]
  · intro q hv
    subst hv
    unfold validate_config_from_disk
    rw [h]
    simp only [Option.getD_some]
    simp only [pyFloat, pyGt]
    by_cases hq : (2 : ℚ) < q
    · simp [hq, not_le.mpr hq]
    · simp [hq, not_lt.mp hq]

/-- C10 witness: a null version raises the bare `TypeError`; the numeric
version `1` is accepted. -/
theorem c10_version_type_error_witness :
    validate_config_from_disk [("version", JVal.jnull)] = Except.error PyErr.typeError ∧
    validate_config_from_disk [("version", JVal.jnum 1)] = Except.ok () := by
  constructor
  · exact (c10_version_type_error [("version", JVal.jnull)] JVal.jnull
      (by with_unfolding_all rfl)).1 (Or.inl rfl)
  · exact ((c10_version_type_error [("version", JVal.jnum 1)] (JVal.jnum 1)
      (by with_unfolding_all rfl)).2 1 rfl).mpr (by norm_num)

/-- C2 counterexample: a project whose config file reads fine but whose
entry-point module lacks the `app` attribute makes `create_config_obj`
surface a bare `AttributeError`, which is none of the three specified
error kinds. -/
theorem c2_counterexample :
    (create_config_obj { project_dir := "p", debug := false, profile := none }
        { configRead := ConfigRead.ok [], vendor_isdir := false,
          importApp := ImportOutcome.ok false 0 }
        [] "dev" none none).1 = Except.error PyErr.attributeError ∧
    ¬ IsSpecifiedErrorKind PyErr.attributeError := by
  refine ⟨by with_unfolding_all rfl, ?_⟩
  rintro (h | ⟨v, h⟩ | ⟨f, l, t, m, h⟩) <;> exact PyErr.noConfusion h

/-- C2 (amended): every error surfaced by `create_config_obj` is one of
the three specified kinds (config-file-unreadable, unknown config
version, translated application-load syntax error) or one of the
untranslated escapes: the `json.loads` decode error, the `TypeError` from
a non-numeric non-string version value, the `AttributeError` for a
missing application symbol, or a non-syntax import-time exception
propagated unmodified. -/
theorem c2_error_kinds (fac : CLIFactory) (w : World) (path : List String)
    (stage : String) (ap : Option Bool) (ags : Option String) (e : PyErr)
    (h : (create_config_obj fac w path stage ap ags).1 = Except.error e) :
    IsSpecifiedErrorKind e ∨ e = PyErr.jsonDecodeError ∨ e = PyErr.typeError ∨
      e = PyErr.attributeError ∨ ∃ tag, e = PyErr.importOther tag := by
  unfold create_config_obj at h
  cases hw : w.configRead with
  | osErr =>
      rw [show load_project_config w = Except.error PyErr.osError from by
        simp [load_project_config, hw]] at h
      simp at h
      exact Or.inl (Or.inl h.symm)
  | ioErr =>
      rw [show load_project_config w = Except.error PyErr.ioError from by
        simp [load_project_config, hw]] at h
      simp at h
      exact Or.inl (Or.inl h.symm)
  | jsonErr =>
      rw [show load_project_config w = Except.error PyErr.jsonDecodeError from by
        simp [load_project_config, hw]] at h
      simp at h
      exact Or.inr (Or.inl h.symm)
  | ok c =>
      rw [show load_project_config w = Except.ok c from by
        simp [load_project_config, hw]] at h
      cases hv : validate_config_from_disk c with
      | error e2 =>
          simp only [hv] at h
          rcases validate_error_kinds c e2 hv with ⟨v, rfl⟩ | rfl
          · simp at h
            exact Or.inl (Or.inr (Or.inl ⟨v, h.symm⟩))
          · simp at h
            exact Or.inr (Or.inr (Or.inl h.symm))
      | ok u =>
          cases u
          simp only [hv] at h
          cases hi : w.importApp with
          | ok hasAppAttr a =>
              cases hasAppAttr
              · rw [show load_chalice_app fac w path =
                    (Except.error PyErr.attributeError,
                      adjust_search_path fac.project_dir w.vendor_isdir path) from by
                  simp [load_chalice_app, hi]] at h
                simp at h
                exact Or.inr (Or.inr (Or.inr (Or.inl h.symm)))
              · rw [show load_chalice_app fac w path =
                    (Except.ok a,
                      adjust_search_path fac.project_dir w.vendor_isdir path) from by
                  simp [load_chalice_app, hi]] at h
                simp at h
          | syntaxError f l t m =>
              rw [show load_chalice_app fac w path =
                  (Except.error (PyErr.runtimeError (syntax_error_message f l t m)),
                    adjust_search_path fac.project_dir w.vendor_isdir path) from by
                simp [load_chalice_app, hi]] at h
              simp at h
              exact Or.inl (Or.inr (Or.inr ⟨f, l, t, m, h.symm⟩))
          | otherError tag =>
              rw [show load_chalice_app fac w path =
                  (Except.error (PyErr.importOther tag),
                    adjust_search_path fac.project_dir w.vendor_isdir path) from by
                simp [load_chalice_app, hi]] at h
              simp at h
              exact Or.inr (Or.inr (Or.inr (Or.inr ⟨tag, h.symm⟩)))

/-- C2 witness: an unreadable config file surfaces as one of the listed
kinds (the wrapped unreadable-config runtime error). -/
theorem c2_error_kinds_witness :
    IsSpecifiedErrorKind (PyErr.runtimeError unable_to_load_message) ∨
    PyErr.runtimeError unable_to_load_message = PyErr.jsonDecodeError ∨
    PyErr.runtimeError unable_to_load_message = PyErr.typeError ∨
    PyErr.runtimeError unable_to_load_message = PyErr.attributeError ∨
    ∃ tag, PyErr.runtimeError unable_to_load_message = PyErr.importOther tag :=
  c2_error_kinds { project_dir := "p", debug := false, profile := none }
    { configRead := ConfigRead.osErr, vendor_isdir := false,
      importApp := ImportOutcome.ok true 0 }
    [] "dev" none none (PyErr.runtimeError unable_to_load_message)
    (by with_unfolding_all rfl)

/-- C7: on every successful resolution the user-provided layer holds the
loaded application object, holds the policy-autogeneration key exactly as
the caller passed it (absent when the caller passed none), the profile
key exactly as the factory was constructed, and the API-stage key exactly
as supplied; and the default layer is exactly the project directory plus
policy-autogeneration set to true. -/
theorem c7_param_layers (fac : CLIFactory) (w : World) (path : List String)
    (stage : String) (ap : Option Bool) (ags : Option String) (cfg : ConfigObj)
    (h : (create_config_obj fac w path stage ap ags).1 = Except.ok cfg) :
    (∃ a, w.importApp = ImportOutcome.ok true a ∧
        cfg.user_provided_params.chalice_app = some a) ∧
    cfg.user_provided_params.autogen_policy = ap ∧
    cfg.user_provided_params.profile = fac.profile ∧
    cfg.user_provided_params.api_gateway_stage = ags ∧
    cfg.default_params.project_dir = fac.project_dir ∧
    cfg.default_params.autogen_policy = true := by
  unfold create_config_obj at h
  cases hw : w.configRead with
  | osErr =>
      rw [show load_project_config w = Except.error PyErr.osError from by
        simp [load_project_config, hw]] at h
      simp at h
  | ioErr =>
      rw [show load_project_config w = Except.error PyErr.ioError from by
        simp [load_project_config, hw]] at h
      simp at h
  | jsonErr =>
      rw [show load_project_config w = Except.error PyErr.jsonDecodeError from by
        simp [load_project_config, hw]] at h
      simp at h
  | ok c =>
      rw [show load_project_config w = Except.ok c from by
        simp [load_project_config, hw]] at h
      cases hv : validate_config_from_disk c with
      | error e2 =>
          simp only [hv] at h
          simp at h
      | ok u =>
          cases u
          simp only [hv] at h
          cases hi : w.importApp with
          | ok hasAppAttr a =>
              cases hasAppAttr
              · rw [show load_chalice_app fac w path =
                    (Except.error PyErr.attributeError,
                      adjust_search_path fac.project_dir w.vendor_isdir path) from by
                  simp [load_chalice_app, hi]] at h
                simp at h
              · rw [show load_chalice_app fac w path =
                    (Except.ok a,
                      adjust_search_path fac.project_dir w.vendor_isdir path) from by
                  simp [load_chalice_app, hi]] at h
                simp at h
                subst h
                exact ⟨⟨a, rfl, rfl⟩, rfl, rfl, rfl, rfl, rfl⟩
          | syntaxError f l t m =>
              rw [show load_chalice_app fac w path =
                  (Except.error (PyErr.runtimeError (syntax_error_message f l t m)),
                    adjust_search_path fac.project_dir w.vendor_isdir path) from by
                simp [load_chalice_app, hi]] at h
              simp at h
          | otherError tag =>
              rw [show load_chalice_app fac w path =
                  (Except.error (PyErr.importOther tag),
                    adjust_search_path fac.project_dir w.vendor_isdir path) from by
                simp [load_chalice_app, hi]] at h
              simp at h

/-- C7 witness: a concrete successful resolution with no caller
overrides and no profile. -/
theorem c7_param_layers_witness :
    (∃ a,
        ({ configRead := ConfigRead.ok [], vendor_isdir := false,
           importApp := ImportOutcome.ok true 7 } : World).importApp =
          ImportOutcome.ok true a ∧
        ({ chalice_stage := "dev",
           user_provided_params :=
             { chalice_app := some 7, autogen_policy := none,
               profile := none, api_gateway_stage := none },
           config_from_disk := [],
           default_params := { project_dir := "p", autogen_policy := true } } :
             ConfigObj).user_provided_params.chalice_app = some a) ∧
    ({ chalice_stage := "dev",
       user_provided_params :=
         { chalice_app := some 7, autogen_policy := none,
           profile := none, api_gateway_stage := none },
       config_from_disk := [],
       default_params := { project_dir := "p", autogen_policy := true } } :
         ConfigObj).user_provided_params.autogen_policy = none ∧
    ({ chalice_stage := "dev",
       user_provided_params :=
         { chalice_app := some 7, autogen_policy := none,
           profile := none, api_gateway_stage := none },
       config_from_disk := [],
       default_params := { project_dir := "p", autogen_policy := true } } :
         ConfigObj).user_provided_params.profile =
      ({ project_dir := "p", debug := false, profile := none } : CLIFactory).profile ∧
    ({ chalice_stage := "dev",
       user_provided_params :=
         { chalice_app := some 7, autogen_policy := none,
           profile := none, api_gateway_stage := none },
       config_from_disk := [],
       default_params := { project_dir := "p", autogen_policy := true } } :
         ConfigObj).user_provided_params.api_gateway_stage = none ∧
    ({ chalice_stage := "dev",
       user_provided_params :=
         { chalice_app := some 7, autogen_policy := none,
           profile := none, api_gateway_stage := none },
       config_from_disk := [],
       default_params := { project_dir := "p", autogen_policy := true } } :
         ConfigObj).default_params.project_dir =
      ({ project_dir := "p", debug := false, profile := none } : CLIFactory).project_dir ∧
    ({ chalice_stage := "dev",
       user_provided_params :=
         { chalice_app := some 7, autogen_policy := none,
           profile := none, api_gateway_stage := none },
       config_from_disk := [],
       default_params := { project_dir := "p", autogen_policy := true } } :
         ConfigObj).default_params.autogen_policy = true :=
  c7_param_layers { project_dir := "p", debug := false, profile := none }
    { configRead := ConfigRead.ok [], vendor_isdir := false,
      importApp := ImportOutcome.ok true 7 }
    [] "dev" none none
    { chalice_stage := "dev",
      user_provided_params :=
        { chalice_app := some 7, autogen_policy := none,
          profile := none, api_gateway_stage := none },
      config_from_disk := [],
      default_params := { project_dir := "p", autogen_policy := true } }
    (by with_unfolding_all rfl)

/-- C8: whenever version validation fails after a successful read, that
failure is the result and neither the application load nor the merge into
a configuration object is ever started; and whenever validation passes,
the application load is started unconditionally. -/
theorem c8_validation_ordering (fac : CLIFactory) (w : World) (path : List String)
    (stage : String) (ap : Option Bool) (ags : Option String) :
    (∀ c e, load_project_config w = Except.ok c →
      validate_config_from_disk c = Except.error e →
      (create_config_obj fac w path stage ap ags).1 = Except.error e ∧
      Event.loadApp ∉ (create_config_obj fac w path stage ap ags).2.2 ∧
      Event.mergeConfig ∉ (create_config_obj fac w path stage ap ags).2.2) ∧
    (∀ c, load_project_config w = Except.ok c →
      validate_config_from_disk c = Except.ok () →
      Event.loadApp ∈ (create_config_obj fac w path stage ap ags).2.2) := by
  constructor
  · intro c e hc hv
    unfold create_config_obj
    rw [hc]
    simp only [hv]
    refine ⟨by trivial, by decide, by decide⟩
  · intro c hc hv
    unfold create_config_obj
    rw [hc]
    simp only [hv]
    cases hl : load_chalice_app fac w path with
    | mk res path2 =>
        cases res <;> simp

/-- C8 witness: with version `"3.0"` the resolution fails before loading
or merging; with an empty config it reaches the application load. -/
theorem c8_validation_ordering_witness :
    ((create_config_obj { project_dir := "p", debug := false, profile := none }
        { configRead := ConfigRead.ok [("version", JVal.jstr "3.0")],
          vendor_isdir := false, importApp := ImportOutcome.ok true 7 }
        [] "dev" none none).1 =
      Except.error (PyErr.unknownConfigFileVersion (JVal.jstr "3.0")) ∧
     Event.loadApp ∉ (create_config_obj { project_dir := "p", debug := false, profile := none }
        { configRead := ConfigRead.ok [("version", JVal.jstr "3.0")],
          vendor_isdir := false, importApp := ImportOutcome.ok true 7 }
        [] "dev" none none).2.2 ∧
     Event.mergeConfig ∉ (create_config_obj { project_dir := "p", debug := false, profile := none }
        { configRead := ConfigRead.ok [("version", JVal.jstr "3.0")],
          vendor_isdir := false, importApp := ImportOutcome.ok true 7 }
        [] "dev" none none).2.2) ∧
    Event.loadApp ∈ (create_config_obj { project_dir := "p", debug := false, profile := none }
        { configRead := ConfigRead.ok [], vendor_isdir := false,
          importApp := ImportOutcome.ok true 7 }
        [] "dev" none none).2.2 := by
  constructor
  · exact (c8_validation_ordering { project_dir := "p", debug := false, profile := none }
      { configRead := ConfigRead.ok [("version", JVal.jstr "3.0")],
        vendor_isdir := false, importApp := ImportOutcome.ok true 7 }
      [] "dev" none none).1 [("version", JVal.jstr "3.0")]
      (PyErr.unknownConfigFileVersion (JVal.jstr "3.0"))
      (by with_unfolding_all rfl) (by with_unfolding_all rfl)
  · exact (c8_validation_ordering { project_dir := "p", debug := false, profile := none }
      { configRead := ConfigRead.ok [], vendor_isdir := false,
        importApp := ImportOutcome.ok true 7 }
      [] "dev" none none).2 []
      (by with_unfolding_all rfl) (by with_unfolding_all rfl)

/-- Helper: joining `vendor` onto a directory never gives back the same
string (it is at least six characters longer). -/
lemma vendor_dir_ne (pd : String) : vendor_dir pd ≠ pd := by
  unfold vendor_dir
  split
  next h0 => rw [h0]; decide
  next h0 =>
    split
    next h1 =>
      intro h
      have h2 := congrArg String.length h
      rw [String.length_append] at h2
      have h6 : ("vendor" : String).length = 6 := rfl
      rw [h6] at h2
      omega
    next h1 =>
      intro h
      have h2 := congrArg String.length h
      rw [String.length_append] at h2
      have h7 : ("/vendor" : String).length = 7 := rfl
      rw [h7] at h2
      omega

/-- C3 counterexample: starting from a search path that already contains
the project root in a non-front position, two adjustment calls leave it
there, so the project root does not end up at the front. -/
theorem c3_counterexample :
    adjust_search_path "p" false (adjust_search_path "p" false ["a", "p"]) = ["a", "p"] ∧
    List.head? ["a", "p"] = some "a" ∧ "a" ≠ "p" :=
  ⟨by with_unfolding_all rfl, rfl, by decide⟩

/-- C3 (amended): for every initial search path that does not already
contain the project root or the vendor directory, the adjustment puts the
project root exactly once at the front, appends the vendor directory
(when it exists on disk) exactly once after all pre-existing entries, and
a second call with the same project root changes nothing. -/
theorem c3_search_path (pd : String) (vendor_isdir : Bool) (path : List String)
    (h1 : pd ∉ path) (h2 : vendor_dir pd ∉ path) :
    adjust_search_path pd vendor_isdir (adjust_search_path pd vendor_isdir path) =
      adjust_search_path pd vendor_isdir path ∧
    adjust_search_path pd vendor_isdir path =
      (pd :: path) ++ (if vendor_isdir = true then [vendor_dir pd] else []) ∧
    List.count pd (adjust_search_path pd vendor_isdir path) = 1 ∧
    (vendor_isdir = true →
      List.count (vendor_dir pd) (adjust_search_path pd vendor_isdir path) = 1) := by
  have hvne := vendor_dir_ne pd
  have hnotin : vendor_dir pd ∉ pd :: path := by
    intro hmem
    rcases List.mem_cons.mp hmem with h | h
    · exact hvne h
    · exact h2 h
  have key : adjust_search_path pd vendor_isdir path =
      (pd :: path) ++ (if vendor_isdir = true then [vendor_dir pd] else []) := by
    cases vendor_isdir
    · simp [adjust_search_path, h1]
    · simp [adjust_search_path, h1, hnotin]
  have idem : adjust_search_path pd vendor_isdir
      (adjust_search_path pd vendor_isdir path) =
      adjust_search_path pd vendor_isdir path := by
    rw [key]
    cases vendor_isdir
    · simp [adjust_search_path]
    · simp [adjust_search_path]
  have hcp : List.count pd (adjust_search_path pd vendor_isdir path) = 1 := by
    rw [key]
    have h0 : List.count pd path = 0 := List.count_eq_zero.mpr h1
    have hv0 : List.count pd [vendor_dir pd] = 0 := by
      rw [List.count_eq_zero]
      simp only [List.mem_singleton]
      exact Ne.symm hvne
    cases vendor_isdir
    · simp [List.count_cons_self, h0]
    · simp [List.count_append, List.count_cons_self, h0, hv0]
  have hcv : vendor_isdir = true →
      List.count (vendor_dir pd) (adjust_search_path pd vendor_isdir path) = 1 := by
    intro hvi
    subst hvi
    rw [key]
    have hvp : List.count (vendor_dir pd) path = 0 := List.count_eq_zero.mpr h2
    simp [List.count_cons, List.count_append, hvp, hvne]
  exact ⟨idem, key, hcp, hcv⟩

/-- C3 witness: a fresh path containing a single unrelated entry, with an
existing vendor directory. -/
theorem c3_search_path_witness :
    adjust_search_path "p" true (adjust_search_path "p" true ["a"]) =
      adjust_search_path "p" true ["a"] ∧
    adjust_search_path "p" true ["a"] =
      ("p" :: ["a"]) ++ (if (true : Bool) = true then [vendor_dir "p"] else []) ∧
    List.count "p" (adjust_search_path "p" true ["a"]) = 1 ∧
    ((true : Bool) = true →
      List.count (vendor_dir "p") (adjust_search_path "p" true ["a"]) = 1) :=
  c3_search_path "p" true ["a"] (by decide) (by decide)

/-- C4: `load_chalice_app` fails with the translated `RuntimeError`
exactly when the import raised a `SyntaxError`; the translated message
contains the file path, the line number, the offending source text and
the error description; a non-syntax import failure and a missing `app`
attribute both propagate as their original exceptions. -/
theorem c4_app_load_errors (fac : CLIFactory) (w : World) (path : List String) :
    (∀ f l t m, w.importApp = ImportOutcome.syntaxError f l t m →
      (load_chalice_app fac w path).1 =
        Except.error (PyErr.runtimeError (syntax_error_message f l t m)) ∧
      ∃ p1 p2 p3 p4, syntax_error_message f l t m =
        p1 ++ f ++ p2 ++ toString l ++ p3 ++ t ++ p4 ++ m) ∧
    ((∃ msg, (load_chalice_app fac w path).1 =
        Except.error (PyErr.runtimeError msg)) →
      ∃ f l t m, w.importApp = ImportOutcome.syntaxError f l t m) ∧
    (∀ tag, w.importApp = ImportOutcome.otherError tag →
      (load_chalice_app fac w path).1 = Except.error (PyErr.importOther tag)) ∧
    (∀ a, w.importApp = ImportOutcome.ok false a →
      (load_chalice_app fac w path).1 = Except.error PyErr.attributeError) := by
  refine ⟨?_, ?_, ?_, ?_⟩
  · intro f l t m hi
    refine ⟨by simp [load_chalice_app, hi], ?_⟩
    exact ⟨"Unable to import your app.py file:\n\nFile \"", "\", line ", "\n  ",
      "\nSyntaxError: ", rfl⟩
  · rintro ⟨msg, hmsg⟩
    cases hi : w.importApp with
    | ok hasAppAttr a =>
        cases hasAppAttr <;> simp [load_chalice_app, hi] at hmsg
    | syntaxError f l t m => exact ⟨f, l, t, m, rfl⟩
    | otherError tag => simp [load_chalice_app, hi] at hmsg
  · intro tag hi
    simp [load_chalice_app, hi]
  · intro a hi
    simp [load_chalice_app, hi]

/-- C4 witness: a syntax error on line 5 is translated into the formatted
runtime error whose message embeds all four components. -/
theorem c4_app_load_errors_witness :
    (load_chalice_app { project_dir := "p", debug := false, profile := none }
        { configRead := ConfigRead.ok [], vendor_isdir := false,
          importApp := ImportOutcome.syntaxError "app.py" 5 "x =" "invalid syntax" }
        []).1 =
      Except.error (PyErr.runtimeError
        (syntax_error_message "app.py" 5 "x =" "invalid syntax")) ∧
    ∃ p1 p2 p3 p4, syntax_error_message "app.py" 5 "x =" "invalid syntax" =
      p1 ++ "app.py" ++ p2 ++ toString 5 ++ p3 ++ "x =" ++ p4 ++ "invalid syntax" :=
  (c4_app_load_errors { project_dir := "p", debug := false, profile := none }
      { configRead := ConfigRead.ok [], vendor_isdir := false,
        importApp := ImportOutcome.syntaxError "app.py" 5 "x =" "invalid syntax" }
      []).1 "app.py" 5 "x =" "invalid syntax" rfl

/-- C6: for every SDK default identification, profile and debug flag, the
constructed session carries the fixed tool name as its primary user-agent
identifier, the tool's release version, and the SDK's original
name/version combined into the single extra suffix. -/
theorem c6_user_agent (sdk_name sdk_version : String) (profile : Option String)
    (debug : Bool) (ls : LoggingState) :
    (create_botocore_session sdk_name sdk_version profile debug ls).1.user_agent_name =
      "aws-chalice" ∧
    (create_botocore_session sdk_name sdk_version profile debug ls).1.user_agent_version =
      chalice_version ∧
    (create_botocore_session sdk_name sdk_version profile debug ls).1.user_agent_extra =
      sdk_name ++ "/" ++ sdk_version := by
  cases debug <;>
    simp [create_botocore_session, add_chalice_user_agent, session_new]

/-- Helper: a record whose message does not carry the prefix passes
through the filter untouched. -/
lemma filter_eval_not_starting (r : LogRecord)
    (hm : msg_starts_making_request r.msg = false) :
    LargeRequestBodyFilter_filter r = Except.ok (true, r) := by
  unfold LargeRequestBodyFilter_filter
  rw [hm]
  simp

/-- Helper: a prefixed record with no positional arguments makes the
subscript `record.args[0]` raise. -/
lemma filter_eval_empty (r : LogRecord)
    (hm : msg_starts_making_request r.msg = true) (ha : r.args = []) :
    LargeRequestBodyFilter_filter r = Except.error PyErr.indexError := by
  unfold LargeRequestBodyFilter_filter
  simp [hm, ha]

/-- Helper: a prefixed record whose first positional argument carries no
`.name` attribute makes the attribute access raise. -/
lemma filter_eval_headno (r : LogRecord) (a : Arg) (rest : List Arg)
    (hm : msg_starts_making_request r.msg = true) (ha : r.args = a :: rest)
    (hname : arg_name a = Except.error PyErr.attributeError) :
    LargeRequestBodyFilter_filter r = Except.error PyErr.attributeError := by
  unfold LargeRequestBodyFilter_filter
  simp [hm, ha, hname]

/-- Helper: on a prefixed record headed by an operation model, the filter
redacts exactly when the operation is one of the two mutating ones. -/
lemma filter_eval_op (r : LogRecord) (n : String) (rest : List Arg)
    (hm : msg_starts_making_request r.msg = true) (ha : r.args = Arg.op n :: rest) :
    LargeRequestBodyFilter_filter r =
      if n ∈ ["UpdateFunctionCode", "CreateFunction"] then
        Except.ok (true,
          { r with args := r.args.dropLast ++ [Arg.str log_placeholder] })
      else Except.ok (true, r) := by
  unfold LargeRequestBodyFilter_filter
  simp only [hm, if_true, ha, arg_name]

/-- C5 counterexample: a record whose message is exactly
`"Making request"` but whose argument tuple is empty makes the filter
raise an `IndexError` instead of returning the keep verdict. -/
theorem c5_counterexample :
    LargeRequestBodyFilter_filter { msg := "Making request", args := [], rest := 0 } =
      Except.error PyErr.indexError := by
  with_unfolding_all rfl

/-- C5 (amended): whenever the filter returns, its verdict is keep; a
record headed by an operation argument is redacted (last positional
argument replaced by the placeholder) exactly when the message carries
the prefix and the operation is function-code update or function
creation, and passes through unmodified otherwise; but a prefixed record
with no first positional argument bearing a name makes the filter raise
instead of returning. -/
theorem c5_filter_behavior (r : LogRecord) :
    (∀ b r2, LargeRequestBodyFilter_filter r = Except.ok (b, r2) → b = true) ∧
    (∀ n rest, r.args = Arg.op n :: rest →
      LargeRequestBodyFilter_filter r =
        Except.ok (true,
          if msg_starts_making_request r.msg = true ∧
              n ∈ ["UpdateFunctionCode", "CreateFunction"] then
            { r with args := r.args.dropLast ++ [Arg.str log_placeholder] }
          else r)) ∧
    (msg_starts_making_request r.msg = true → r.args = [] →
      LargeRequestBodyFilter_filter r = Except.error PyErr.indexError) ∧
    (msg_starts_making_request r.msg = false →
      LargeRequestBodyFilter_filter r = Except.ok (true, r)) := by
  refine ⟨?_, ?_, filter_eval_empty r, filter_eval_not_starting r⟩
  · intro b r2 h
    cases hm : msg_starts_making_request r.msg with
    | false =>
        rw [filter_eval_not_starting r hm] at h
        injection h with h1
        injection h1 with hb _
        exact hb.symm
    | true =>
        cases ha : r.args with
        | nil =>
            rw [filter_eval_empty r hm ha] at h
            exact Except.noConfusion h
        | cons a rest =>
            cases a with
            | op n =>
                rw [filter_eval_op r n rest hm ha] at h
                by_cases hn : n ∈ ["UpdateFunctionCode", "CreateFunction"]
                · rw [if_pos hn] at h
                  injection h with h1
                  injection h1 with hb _
                  exact hb.symm
                · rw [if_neg hn] at h
                  injection h with h1
                  injection h1 with hb _
                  exact hb.symm
            | str s =>
                rw [filter_eval_headno r (Arg.str s) rest hm ha rfl] at h
                exact Except.noConfusion h
            | other t =>
                rw [filter_eval_headno r (Arg.other t) rest hm ha rfl] at h
                exact Except.noConfusion h
  · intro n rest ha
    cases hm : msg_starts_making_request r.msg with
    | false =>
        rw [filter_eval_not_starting r hm]
        rw [if_neg]
        rintro ⟨hx, -⟩
        exact Bool.noConfusion hx
    | true =>
        rw [filter_eval_op r n rest hm ha]
        by_cases hn : n ∈ ["UpdateFunctionCode", "CreateFunction"]
        · rw [if_pos hn, if_pos ⟨rfl, hn⟩]
        · rw [if_neg hn, if_neg]
          rintro ⟨-, hx⟩
          exact hn hx

/-- C5 witness: a record with a different message passes through with the
keep verdict. -/
theorem c5_filter_behavior_witness :
    LargeRequestBodyFilter_filter { msg := "hello", args := [], rest := 0 } =
      Except.ok (true, { msg := "hello", args := [], rest := 0 }) :=
  (c5_filter_behavior { msg := "hello", args := [], rest := 0 }).2.2.2
    (by with_unfolding_all rfl)

/-- C9 counterexample: redacting a record with exactly one positional
argument replaces that argument with the placeholder string; applying the
filter a second time then hits the placeholder string's missing `.name`
attribute and raises instead of producing the same record again. -/
theorem c9_counterexample :
    LargeRequestBodyFilter_filter
        { msg := "Making request", args := [Arg.op "CreateFunction"], rest := 0 } =
      Except.ok (true,
        { msg := "Making request", args := [Arg.str log_placeholder], rest := 0 }) ∧
    LargeRequestBodyFilter_filter
        { msg := "Making request", args := [Arg.str log_placeholder], rest := 0 } =
      Except.error PyErr.attributeError :=
  ⟨by with_unfolding_all rfl, by with_unfolding_all rfl⟩

/-- C9 (amended): whenever the filter returns a record, only the last
positional argument can differ from the input (message, every argument
before the last, the argument count and all other fields are unchanged);
and a second application returns the same record again provided the
record had at least two positional arguments or was returned unchanged —
with exactly one redacted argument the second application raises
instead. -/
theorem c9_filter_frame (r r2 : LogRecord)
    (h : LargeRequestBodyFilter_filter r = Except.ok (true, r2)) :
    (r2.msg = r.msg ∧ r2.rest = r.rest ∧
      r2.args.dropLast = r.args.dropLast ∧ r2.args.length = r.args.length) ∧
    (2 ≤ r.args.length ∨ r2 = r →
      LargeRequestBodyFilter_filter r2 = Except.ok (true, r2)) := by
  cases hm : msg_starts_making_request r.msg with
  | false =>
      rw [filter_eval_not_starting r hm] at h
      injection h with h1
      injection h1 with _ hr
      subst hr
      exact ⟨⟨rfl, rfl, rfl, rfl⟩, fun _ => filter_eval_not_starting r hm⟩
  | true =>
      cases ha : r.args with
      | nil =>
          rw [filter_eval_empty r hm ha] at h
          exact Except.noConfusion h
      | cons a rest =>
          cases a with
          | str s =>
              rw [filter_eval_headno r (Arg.str s) rest hm ha rfl] at h
              exact Except.noConfusion h
          | other t =>
              rw [filter_eval_headno r (Arg.other t) rest hm ha rfl] at h
              exact Except.noConfusion h
          | op n =>
              rw [filter_eval_op r n rest hm ha] at h
              by_cases hn : n ∈ ["UpdateFunctionCode", "CreateFunction"]
              · rw [if_pos hn] at h
                have h' := h
                injection h' with h1
                injection h1 with _ hr
                constructor
                · rw [← hr]
                  refine ⟨rfl, rfl, by simp [List.dropLast_concat, ha], ?_⟩
                  rw [ha]
                  simp
                · intro hlen
                  rcases hlen with hlen | heq
                  · cases rest with
                    | nil =>
                        simp at hlen
                    | cons b rest2 =>
                        have hargs2 : r2.args =
                            Arg.op n :: ((b :: rest2).dropLast ++ [Arg.str log_placeholder]) := by
                          rw [← hr, ha]
                          simp [List.dropLast]
                        have hm2 : msg_starts_making_request r2.msg = true := by
                          rw [← hr]
                          exact hm
                        rw [filter_eval_op r2 n _ hm2 hargs2, if_pos hn]
                        rw [← hr, ha]
                        simp [List.dropLast, List.dropLast_concat]
                  · rw [heq]
                    rw [filter_eval_op r n rest hm ha, if_pos hn]
                    rw [hr, heq]
              · rw [if_neg hn] at h
                injection h with h1
                injection h1 with _ hr
                subst hr
                refine ⟨⟨rfl, rfl, by rw [ha], by rw [ha]⟩, fun _ => ?_⟩
                rw [filter_eval_op r n rest hm ha, if_neg hn]

/-- C9 witness: with two positional arguments the redaction keeps the
head operation argument, so a second application reproduces the same
record. -/
theorem c9_filter_frame_witness :
    LargeRequestBodyFilter_filter
        { msg := "Making request", args := [Arg.op "CreateFunction", Arg.str log_placeholder],
          rest := 0 } =
      Except.ok (true,
        { msg := "Making request", args := [Arg.op "CreateFunction", Arg.str log_placeholder],
          rest := 0 }) :=
  (c9_filter_frame
      { msg := "Making request", args := [Arg.op "CreateFunction", Arg.str "zip"], rest := 0 }
      { msg := "Making request", args := [Arg.op "CreateFunction", Arg.str log_placeholder],
        rest := 0 }
      (by with_unfolding_all rfl)).2 (Or.inl (by decide))
